import Mathlib

/-!
Shallow embedding of the Operating-Point Specification & Validation Pipeline
of `src/models/basic_design_model.py` (class `BasicDesignModel`) together
with the relevant loader logic of `src/utils/data_loader.py`.

Modelling conventions:
* Python `float` values flowing through the numeric pipeline are modelled as
  rationals (`ℚ`); the loader boundary, where `NaN` can occur in raw CSV
  cells, is modelled with the explicit `PyFloat` type below.
* Console printing and CSV persistence are I/O side effects and carry no
  data back to the caller; only caller-visible data (return values and the
  numbers shown in the summary) are modelled.
* The external TESPy solver and the CoolProp property backend are
  parameters of the model (a solver oracle and a saturation-pressure
  oracle), exactly as the spec treats them: external collaborators.
-/

/-- A Python float at the loader boundary: either NaN or a finite value.
Infinities do not arise in the modelled code paths (no overflow, no
division of nonzero by zero). -/
inductive PyFloat where
  | nan : PyFloat
  | fin : ℚ → PyFloat
deriving DecidableEq

/-- `safe_float` of `data_loader._extract_parameters`: `pd.isna(val)` (here:
a missing cell or a NaN cell) yields the default `None`; otherwise the
finite value itself. -/
def safeFloat (cell : Option PyFloat) : Option ℚ :=
  match cell with
  | none => none
  | some PyFloat.nan => none
  | some (PyFloat.fin x) => some x

/-- The generic `p_th` column branch of `data_loader._extract_parameters`
(lines 181-184): `P_th = safe_float(row[col]); if P_th:` stores
`P_th / 1000 if P_th > 100 else P_th` under `P_th_nom_kW`. A falsy value
(`None` or `0.0`) leaves the key absent. -/
def extractPthNom (cell : Option PyFloat) : Option ℚ :=
  match safeFloat cell with
  | none => none
  | some x => if x = 0 then none else some (if 100 < x then x / 1000 else x)

/-- The parameter dictionary `self.params` built by
`_set_parameters_from_hplib` / `_set_default_parameters`. All values are
finite rationals in the modelled paths (see `extractPthNom`: the loader
filters NaN before the dictionary is built). -/
structure Params where
  refrigerant : String
  eta_s : ℚ
  pr_evap : ℚ
  pr_cond : ℚ
  kA_evap : ℚ
  kA_cond : ℚ
  P_th_nom_kW : ℚ
deriving DecidableEq

/-- `_set_parameters_from_hplib` (lines 86-112): reads
`wp_data.get('P_th_nom_kW')` (the `Option ℚ` argument); if it `is None or
== 0`, prints a warning and uses the default 5.0 kW. The kA values follow
the duty/7 and duty/6 rule of thumb. Returns the parameter set together
with the warning flag (`True` exactly when the warning line was printed). -/
def setParametersFromHplib (refrigerant : String) (P_th_cell : Option ℚ) :
    Params × Bool :=
  let warned : Bool :=
    match P_th_cell with
    | none => true
    | some x => decide (x = 0)
  let P_th_nom : ℚ :=
    match P_th_cell with
    | none => 5
    | some x => if x = 0 then 5 else x
  ({ refrigerant := refrigerant
     eta_s := 3/4
     pr_evap := 49/50
     pr_cond := 49/50
     kA_evap := P_th_nom / 7
     kA_cond := P_th_nom / 6
     P_th_nom_kW := P_th_nom }, warned)

/-- `_set_default_parameters` (lines 114-124): the parameter set used when
no device name was given to the constructor. -/
def setDefaultParameters : Params :=
  { refrigerant := "R410A"
    eta_s := 3/4
    pr_evap := 49/50
    pr_cond := 49/50
    kA_evap := 7/10
    kA_cond := 4/5
    P_th_nom_kW := 5 }

/-- `_calculate_mass_flow` (lines 253-256): `P_th / (cp_water * dT)` with
`cp_water = 4.180` kJ/(kg K). -/
def calculate_mass_flow (P_th dT : ℚ) : ℚ :=
  P_th / (418/100 * dT)

/-- Character-list version of Python string containment: does `hay` start
with `needle`? -/
def startsWithChars : List Char → List Char → Bool
  | [], _ => true
  | _ :: _, [] => false
  | a :: as, b :: bs => a == b && startsWithChars as bs

/-- Character-list version of Python `needle in hay` (substring test). -/
def hasSubstr (needle : List Char) : List Char → Bool
  | [] => needle.isEmpty
  | c :: rest => startsWithChars needle (c :: rest) || hasSubstr needle rest

/-- Python `fluid.upper()`. -/
def upperStr (s : String) : String :=
  String.mk (s.toList.map Char.toUpper)

/-- The test `'R410A' in fluid.upper()` of `_estimate_pressures`
(line 270). -/
def containsR410A (fluid : String) : Bool :=
  hasSubstr "R410A".toList (upperStr fluid).toList

/-- The fallback branch of `_estimate_pressures` (lines 268-272). -/
def fallbackPressures (fluid : String) : ℚ × ℚ :=
  if containsR410A fluid then (11/2, 18) else (3, 12)

/-- A saturation-pressure backend: `CP.PropsSI('P', 'T', T_K, 'Q', 0,
fluid)` in Pa at a temperature in K, or `none` when the library call
raises (temperature out of the valid range, unknown fluid, ...). -/
abbrev PropertyBackend := String → ℚ → Option ℚ

/-- `_estimate_pressures` (lines 258-272): query the backend at
`(T_evap - 5) + 273.15` and `(T_cond + 5) + 273.15`, convert Pa to bar;
the `try` block spans both queries, so a failure of either one lands in
the `except` fallback. The bare `except` means no backend failure ever
escapes this function. -/
def estimatePressures (backend : PropertyBackend) (fluid : String)
    (T_evap T_cond : ℚ) : ℚ × ℚ :=
  match backend fluid ((T_evap - 5) + 27315/100),
        backend fluid ((T_cond + 5) + 27315/100) with
  | some p_evap, some p_cond => (p_evap / 100000, p_cond / 100000)
  | _, _ => fallbackPressures fluid

/-- The boundary conditions and initial guesses that `set_operating_point`
(lines 179-251) fixes on the freshly built network. Fluid-composition
dictionaries (pure refrigerant on `c0`, pure water on `h1`/`q1`) and the
wiring itself belong to the Topology Builder and carry no numeric content,
so they are not repeated here. -/
structure OperatingSpec where
  T_source : ℚ
  T_supply : ℚ
  T_return : ℚ
  m_heating : ℚ
  T_source_out : ℚ
  m_source : ℚ
  evap_pr1 : ℚ
  evap_pr2 : ℚ
  evap_ttd_l : ℚ
  cond_pr1 : ℚ
  cond_pr2 : ℚ
  cond_ttd_u : ℚ
  eta_s : ℚ
  valve_pr : ℚ
  p0_evap : ℚ
  p0_cond : ℚ
  m0_ref : ℚ
deriving DecidableEq

/-- `set_operating_point` (lines 179-251): heating return temperature is
`T_supply - 5`, heating mass flow comes from `_calculate_mass_flow` with a
5 K spread, the source outlet is `T_source - 3`, the source mass flow is
`m_heating * 1.2`, component parameters come from `self.params`, pressure
initial guesses from `_estimate_pressures`, and the refrigerant mass-flow
guess is `P_th_nom / 200`. -/
def setOperatingPoint (backend : PropertyBackend) (params : Params)
    (T_source : ℚ) (T_supply : ℚ) : OperatingSpec :=
  let T_return := T_supply - 5
  let m_heating := calculate_mass_flow params.P_th_nom_kW 5
  let T_source_out := T_source - 3
  let m_source := m_heating * (12/10)
  let pe_pc := estimatePressures backend params.refrigerant T_source T_supply
  { T_source := T_source
    T_supply := T_supply
    T_return := T_return
    m_heating := m_heating
    T_source_out := T_source_out
    m_source := m_source
    evap_pr1 := params.pr_evap
    evap_pr2 := params.pr_evap
    evap_ttd_l := 5
    cond_pr1 := params.pr_cond
    cond_pr2 := params.pr_cond
    cond_ttd_u := 5
    eta_s := params.eta_s
    valve_pr := 1
    p0_evap := pe_pc.1
    p0_cond := pe_pc.2
    m0_ref := params.P_th_nom_kW / 200 }

/-- The solver-facing view of a solved network: the status code set by
`network.solve('design')` plus the raw (signed) values that `get_results`
reads back. Status 0 means converged; `solve()` maps any other status, and
any raised exception, to a non-converged outcome, which we represent by a
nonzero status. -/
structure SolvedState where
  status : Int
  condenserQ : ℚ
  evaporatorQ : ℚ
  compressorP : ℚ
  c1_T : ℚ
  c3_T : ℚ
  c1_p : ℚ
  c2_p : ℚ
  c1_m : ℚ
deriving DecidableEq

/-- The result dictionary built by `get_results` (lines 283-304). -/
structure Results where
  P_th_kW : ℚ
  Q_source_kW : ℚ
  P_el_kW : ℚ
  COP : ℚ
  T_evap_C : ℚ
  T_cond_C : ℚ
  p_evap_bar : ℚ
  p_cond_bar : ℚ
  m_ref_kg_s : ℚ
  energy_balance_kW : ℚ
deriving DecidableEq

/-- `get_results` (lines 283-304): `None` unless the solver status is 0;
otherwise absolute duties and power, and
`COP = Q_heating / max(P_el, 1e-9)`. -/
def get_results (s : SolvedState) : Option Results :=
  if s.status ≠ 0 then none
  else
    let Q_heating := |s.condenserQ|
    let Q_cooling := |s.evaporatorQ|
    let P_el := |s.compressorP|
    some { P_th_kW := Q_heating
           Q_source_kW := Q_cooling
           P_el_kW := P_el
           COP := Q_heating / max P_el (1/1000000000)
           T_evap_C := s.c1_T
           T_cond_C := s.c3_T
           p_evap_bar := s.c1_p
           p_cond_bar := s.c2_p
           m_ref_kg_s := s.c1_m
           energy_balance_kW := |Q_heating - Q_cooling - P_el| }

/-- One row of the manufacturer reference table (`load_manufacturer_data`,
for example `_create_example_manufacturer_data`). -/
structure RefRow where
  T_source : ℚ
  T_supply : ℚ
  COP_ref : ℚ
  P_th_ref_kW : ℚ
  P_el_ref_kW : ℚ
deriving DecidableEq

/-- The reference columns that `run_single_point` (lines 326-340) adds to
a result row when a matching manufacturer row exists. -/
structure RefJoin where
  COP_ref : ℚ
  P_th_ref_kW : ℚ
  COP_deviation_pct : ℚ
  P_th_deviation_pct : ℚ
deriving DecidableEq

/-- One row of the validation DataFrame: the extracted results plus the
operating point and, when reference data matched, the deviation columns.
The printed point label `B{T_source}/W{T_supply}` is a formatting of the
two temperatures already present and is not modelled separately. -/
structure ValidationRow where
  base : Results
  T_source : ℚ
  T_supply : ℚ
  refjoin : Option RefJoin
deriving DecidableEq

/-- An external solver oracle: what `network.solve('design')` leaves on
the network built and specified for one operating point. -/
abbrev SolverOracle := OperatingSpec → SolvedState

/-- `run_single_point` (lines 306-350): build a fresh network, specify the
operating point, solve, extract; on non-convergence print a message and
return `None`. When manufacturer data exists and has a row with matching
`T_source` (exact equality, first match), add reference values and signed
percentage deviations. -/
def run_single_point (backend : PropertyBackend) (solver : SolverOracle)
    (params : Params) (mdata : Option (List RefRow))
    (T_source : ℚ) (T_supply : ℚ) : Option ValidationRow :=
  match get_results (solver (setOperatingPoint backend params T_source T_supply)) with
  | none => none
  | some res =>
    let refjoin :=
      match mdata with
      | none => none
      | some table =>
        match table.filter (fun r => r.T_source = T_source) with
        | [] => none
        | r :: _ =>
          some { COP_ref := r.COP_ref
                 P_th_ref_kW := r.P_th_ref_kW
                 COP_deviation_pct := (res.COP - r.COP_ref) / r.COP_ref * 100
                 P_th_deviation_pct :=
                   (res.P_th_kW - r.P_th_ref_kW) / r.P_th_ref_kW * 100 }
    some { base := res
           T_source := T_source
           T_supply := T_supply
           refjoin := refjoin }

/-- The six canonical operating points of `run_validation_study`
(lines 371-378). -/
def testpoints : List (ℚ × ℚ) :=
  [(-10, 35), (-7, 35), (-5, 35), (0, 35), (5, 35), (10, 35)]

/-- `run_validation_study` (lines 352-425), caller-visible return value:
the rows of the returned DataFrame. Each point is attempted in order; a
`None` from `run_single_point` is simply not appended and the loop
continues. When no point converged the function prints an error block and
returns an empty DataFrame (it returns nothing else: no exception, no
status flag). -/
def run_validation_study (backend : PropertyBackend) (solver : SolverOracle)
    (params : Params) (mdata : Option (List RefRow)) : List ValidationRow :=
  testpoints.filterMap (fun p => run_single_point backend solver params mdata p.1 p.2)

/-- The success count printed in the summary line
`Erfolgreich: {len(results)}/6 Punkte` (line 407): converged count and
attempted count. -/
def summaryCounts (rows : List ValidationRow) : Nat × Nat :=
  (rows.length, testpoints.length)

/-- `df['COP_deviation_%'].abs().mean()` (line 414): pandas takes the mean
over the rows that carry the deviation column (rows without it hold NaN,
which `.mean()` skips); `none` when no row has the column, in which case
the classification block is not reached (line 413 guards on the column
existing). -/
def meanAbsCopDev (rows : List ValidationRow) : Option ℚ :=
  let devs := rows.filterMap (fun r => r.refjoin.map (fun j => |j.COP_deviation_pct|))
  match devs with
  | [] => none
  | _ => some (devs.sum / devs.length)

/-- The three-band fit classification printed at lines 416-421:
`mean_dev < 10` is the "good" branch (`Sehr gut! (<10%)`), `elif
mean_dev < 20` the "acceptable" branch (`Akzeptabel (10-20%)`), `else`
the "poor" branch (`Zu hoch (>20%)`). -/
def classifyFit (mean_dev : ℚ) : String :=
  if mean_dev < 10 then "good"
  else if mean_dev < 20 then "acceptable"
  else "poor"

/-- The classification actually reported for a sweep, when deviation data
exists. -/
def fitReport (rows : List ValidationRow) : Option String :=
  (meanAbsCopDev rows).map classifyFit

/-- `_create_example_manufacturer_data` of `data_loader.py`: the synthetic
reference table (values of a Vitocal 200-G BWC 201.B06) used when no
datasheet file exists. -/
def exampleManufacturerData : List RefRow :=
  [ { T_source := -10, T_supply := 35, COP_ref := 245/100, P_th_ref_kW := 38/10, P_el_ref_kW := 155/100 }
  , { T_source := -7, T_supply := 35, COP_ref := 265/100, P_th_ref_kW := 42/10, P_el_ref_kW := 158/100 }
  , { T_source := -5, T_supply := 35, COP_ref := 28/10, P_th_ref_kW := 45/10, P_el_ref_kW := 161/100 }
  , { T_source := 0, T_supply := 35, COP_ref := 301/100, P_th_ref_kW := 523/100, P_el_ref_kW := 174/100 }
  , { T_source := 5, T_supply := 35, COP_ref := 335/100, P_th_ref_kW := 58/10, P_el_ref_kW := 173/100 }
  , { T_source := 10, T_supply := 35, COP_ref := 36/10, P_th_ref_kW := 64/10, P_el_ref_kW := 178/100 } ]

/-- The spec's amended fallback test, formalised independently of
`containsR410A`: case-insensitive substring containment of `"R410A"`,
implemented by scanning every suffix of the upper-cased character list. -/
def specContainsR410A (fluid : String) : Bool :=
  let u := fluid.toList.map Char.toUpper
  (List.range (u.length + 1)).any fun i => startsWithChars "R410A".toList (u.drop i)

/-- The spec's Rule 4 for initial pressure guesses, amended only in the
containment test (case-insensitive), written from the spec sentence:
saturation pressure queried at `source_temp - 5 K` and `supply_temp + 5 K`
(in Kelvin), converted from Pa to bar; on failure of either query the
fluid-family constants 5.5/18.0 bar (R410A family) or 3.0/12.0 bar. -/
def specEstimatePressures (backend : PropertyBackend) (fluid : String)
    (source_temp supply_temp : ℚ) : ℚ × ℚ :=
  match backend fluid ((source_temp - 5) + 27315/100),
        backend fluid ((supply_temp + 5) + 27315/100) with
  | some p_evap, some p_cond => (p_evap / 100000, p_cond / 100000)
  | _, _ => if specContainsR410A fluid then (11/2, 18) else (3, 12)

/-- A property backend whose every call raises (for example, an unknown
fluid name): test fixture. -/
def noneBackend : PropertyBackend := fun _ _ => none

/-- A backend returning the queried temperature itself as the pressure:
trivially monotone test fixture. -/
def idBackend : PropertyBackend := fun _ T => some T

/-- A backend that is linear (hence non-decreasing) below 320 K and raises
above: test fixture for the success/failure boundary. -/
def rampBackend : PropertyBackend := fun _ T => if T ≤ 320 then some (20000 * T) else none

/-- A solver outcome with a nonzero status: non-convergence. -/
def constFailState : SolvedState :=
  { status := 1, condenserQ := 0, evaporatorQ := 0, compressorP := 0,
    c1_T := 0, c3_T := 0, c1_p := 0, c2_p := 0, c1_m := 0 }

/-- A solver oracle that never converges. -/
def constFailSolver : SolverOracle := fun _ => constFailState

/-- A second never-converging oracle with a different nonzero status. -/
def statusTwoSolver : SolverOracle :=
  fun _ => { status := 2, condenserQ := 3, evaporatorQ := 2, compressorP := 1,
             c1_T := 0, c3_T := 30, c1_p := 5, c2_p := 18, c1_m := 1/50 }

/-- A converged solver outcome: 5.2 kW condenser duty, 3.7 kW evaporator
duty, 1.6 kW compressor power. -/
def goodState : SolvedState :=
  { status := 0, condenserQ := 52/10, evaporatorQ := -37/10, compressorP := 16/10,
    c1_T := -2, c3_T := 38, c1_p := 6, c2_p := 20, c1_m := 1/40 }

/-- `get_results goodState`: the extracted result dictionary. -/
def goodResults : Results :=
  { P_th_kW := 52/10, Q_source_kW := 37/10, P_el_kW := 16/10, COP := 13/4,
    T_evap_C := -2, T_cond_C := 38, p_evap_bar := 6, p_cond_bar := 20,
    m_ref_kg_s := 1/40, energy_balance_kW := 1/10 }

/-- A solver oracle for which exactly the B-10/W35 point fails. -/
def oneFailSolver : SolverOracle :=
  fun spec => if spec.T_source = -10 then constFailState else goodState

/-- A solver oracle whose converged point has COP 3.6 (heating duty 3.6 kW
at 1 kW electrical power). -/
def cop36Solver : SolverOracle :=
  fun _ => { status := 0, condenserQ := 36/10, evaporatorQ := -26/10, compressorP := 1,
             c1_T := 0, c3_T := 40, c1_p := 5, c2_p := 18, c1_m := 1/50 }

/-- A one-row reference table with COP 3.0 at source temperature 0. -/
def copRefTable : List RefRow :=
  [ { T_source := 0, T_supply := 35, COP_ref := 3, P_th_ref_kW := 5, P_el_ref_kW := 17/10 } ]

/-- A degenerate converged state with zero condenser duty and 1 kW
compressor power. -/
def zeroCopState : SolvedState :=
  { status := 0, condenserQ := 0, evaporatorQ := -2, compressorP := 1,
    c1_T := 0, c3_T := 30, c1_p := 4, c2_p := 15, c1_m := 1/50 }

/-- `get_results zeroCopState`: the COP extracted from `zeroCopState`
is 0. -/
def zeroCopResults : Results :=
  { P_th_kW := 0, Q_source_kW := 2, P_el_kW := 1, COP := 0,
    T_evap_C := 0, T_cond_C := 30, p_evap_bar := 4, p_cond_bar := 15,
    m_ref_kg_s := 1/50, energy_balance_kW := 3 }

theorem startsWithChars_nil (n : List Char) : startsWithChars n [] = n.isEmpty := by
  cases n <;> rfl

theorem hasSubstr_eq_any_drop (n l : List Char) :
    hasSubstr n l = (List.range (l.length + 1)).any (fun i => startsWithChars n (l.drop i)) := by
  induction l with
  | nil => simp [hasSubstr, List.range_succ_eq_map, List.range_zero, startsWithChars_nil]
  | cons c rest ih =>
    calc hasSubstr n (c :: rest)
        = (startsWithChars n (c :: rest) || hasSubstr n rest) := by simp [hasSubstr]
      _ = (startsWithChars n (c :: rest) ||
            (List.range (rest.length + 1)).any fun i => startsWithChars n (rest.drop i)) := by
          rw [ih]
      _ = (List.range ((c :: rest).length + 1)).any
            (fun i => startsWithChars n ((c :: rest).drop i)) := by
          conv_rhs => rw [show (c :: rest).length + 1 = rest.length + 1 + 1 from rfl,
            List.range_succ_eq_map, List.any_cons, List.any_map]
          congr 1

theorem containsR410A_eq_spec (fluid : String) :
    containsR410A fluid = specContainsR410A fluid := by
  unfold containsR410A specContainsR410A
  rw [hasSubstr_eq_any_drop]
  rfl

theorem get_results_eq_none_iff (s : SolvedState) :
    get_results s = none ↔ s.status ≠ 0 := by
  unfold get_results
  split
  · rename_i h; simp [h]
  · rename_i h; push_neg at h; simp [h]

theorem run_single_point_none_iff (backend : PropertyBackend) (solver : SolverOracle)
    (params : Params) (mdata : Option (List RefRow)) (Ts Tsup : ℚ) :
    run_single_point backend solver params mdata Ts Tsup = none ↔
      (solver (setOperatingPoint backend params Ts Tsup)).status ≠ 0 := by
  rw [← get_results_eq_none_iff]
  unfold run_single_point
  rcases h : get_results (solver (setOperatingPoint backend params Ts Tsup)) with _ | r
  · simp [h]
  · simp [h]

theorem run_single_point_some_of_converged (backend : PropertyBackend) (solver : SolverOracle)
    (params : Params) (mdata : Option (List RefRow)) (Ts Tsup : ℚ)
    (h : (solver (setOperatingPoint backend params Ts Tsup)).status = 0) :
    ∃ row, run_single_point backend solver params mdata Ts Tsup = some row ∧
      row.T_source = Ts ∧ row.T_supply = Tsup := by
  obtain ⟨r, hr⟩ : ∃ r, get_results (solver (setOperatingPoint backend params Ts Tsup)) = some r := by
    unfold get_results
    rw [if_neg (by simp [h])]
    exact ⟨_, rfl⟩
  unfold run_single_point
  rw [hr]
  exact ⟨_, rfl, rfl, rfl⟩

theorem rampBackend_monotone (fluid : String) (T1 T2 u v : ℚ)
    (h1 : rampBackend fluid T1 = some u) (h2 : rampBackend fluid T2 = some v)
    (h : T1 ≤ T2) : u ≤ v := by
  simp only [rampBackend] at h1 h2
  split_ifs at h1 h2
  all_goals simp_all
  linarith

/-- Claim C1, counterexample: with the default parameter set (nominal duty
5.0 kW), the source-side mass flow set by `set_operating_point` is not
`P_th_nom / (4.180 * 3)`. The code computes `m_source = m_heating * 1.2`
(line 211), not a flow derived from the 3 K source spread. -/
theorem source_mass_flow_cex :
    (setOperatingPoint noneBackend setDefaultParameters 0 35).m_source
      ≠ 5 / (418/100 * 3) := by
  simp [setOperatingPoint, setDefaultParameters, calculate_mass_flow]
  norm_num

/-- Claim C1, amended: for every operating point, the source-side mass
flow is 1.2 times the heating-loop flow, i.e.
`P_th_nom / (4.180 * (25/6))` — the effective source-side spread implied
by the code is 25/6 K (about 4.17 K), not the 3 K used for the source
outlet temperature `T_source_out = T_source - 3`. -/
theorem source_mass_flow_formula (backend : PropertyBackend) (params : Params)
    (T_source T_supply : ℚ) :
    (setOperatingPoint backend params T_source T_supply).m_source
        = 12/10 * calculate_mass_flow params.P_th_nom_kW 5 ∧
    (setOperatingPoint backend params T_source T_supply).m_source
        = params.P_th_nom_kW / (418/100 * (25/6)) ∧
    (setOperatingPoint backend params T_source T_supply).T_source_out = T_source - 3 := by
  refine ⟨?_, ?_, rfl⟩
  · simp [setOperatingPoint, calculate_mass_flow]
    ring
  · simp [setOperatingPoint, calculate_mass_flow]
    field_simp
    ring

/-- Claim C2, counterexample: when every point fails to converge,
`run_validation_study` returns the bare empty DataFrame (here: the empty
row list), and the same bare empty value whether or not reference data was
available. The DataFrame is the function's entire caller-visible return:
no exception, flag or status accompanies it, so no "distinct condition" is
signalled beyond the emptiness of the frame itself (the error text at
lines 390-394 goes to the console only). -/
theorem sweep_all_fail_cex :
    run_validation_study noneBackend constFailSolver setDefaultParameters
        (some exampleManufacturerData) = ([] : List ValidationRow) ∧
    run_validation_study noneBackend constFailSolver setDefaultParameters none
        = ([] : List ValidationRow) := by
  constructor <;>
    simp [run_validation_study, testpoints, run_single_point, get_results,
      constFailSolver, constFailState]

/-- Claim C2, amended: the returned DataFrame is empty exactly when no
point of the six-point sweep converged — emptiness of the returned frame
is the one and only caller-visible indicator of the all-failed sweep. -/
theorem sweep_empty_iff_no_convergence (backend : PropertyBackend) (solver : SolverOracle)
    (params : Params) (mdata : Option (List RefRow)) :
    run_validation_study backend solver params mdata = [] ↔
      ∀ p ∈ testpoints, (solver (setOperatingPoint backend params p.1 p.2)).status ≠ 0 := by
  unfold run_validation_study
  rw [List.filterMap_eq_nil_iff]
  constructor
  · intro h p hp
    exact (run_single_point_none_iff backend solver params mdata p.1 p.2).mp (h p hp)
  · intro h p hp
    exact (run_single_point_none_iff backend solver params mdata p.1 p.2).mpr (h p hp)

/-- Witness for the amended Claim C2 at a concrete never-converging solver
(status 2 everywhere). -/
theorem sweep_empty_iff_no_convergence_witness :
    run_validation_study noneBackend statusTwoSolver setDefaultParameters none = [] :=
  (sweep_empty_iff_no_convergence noneBackend statusTwoSolver setDefaultParameters none).mpr
    (by intro p hp; norm_num [statusTwoSolver])

/-- Claim C3, counterexample: a mean absolute COP deviation of exactly 20%
is classified "poor" (the `else` branch of lines 416-421), not
"acceptable" as the stated 10-20% band requires; shown both on the bare
classifier and through a full sweep whose single reference-joined point
has COP deviation exactly +20% (model COP 3.6 vs reference 3.0). -/
theorem classify_boundary_cex :
    classifyFit 20 = "poor" ∧
    classifyFit 20 ≠ "acceptable" ∧
    meanAbsCopDev (run_validation_study noneBackend cop36Solver setDefaultParameters
        (some copRefTable)) = some 20 ∧
    fitReport (run_validation_study noneBackend cop36Solver setDefaultParameters
        (some copRefTable)) = some "poor" := by
  have hp : classifyFit 20 = "poor" := by norm_num [classifyFit]
  refine ⟨hp, by rw [hp]; decide, ?_, ?_⟩
  · norm_num [meanAbsCopDev, run_validation_study, testpoints, run_single_point, get_results,
      cop36Solver, copRefTable, List.filterMap_cons, abs_eq_max_neg, max_def]
  · norm_num [fitReport, classifyFit, meanAbsCopDev, run_validation_study, testpoints,
      run_single_point, get_results, cop36Solver, copRefTable, List.filterMap_cons,
      abs_eq_max_neg, max_def]

/-- Claim C3, amended: the three bands are `mean < 10` "good",
`10 ≤ mean < 20` "acceptable", `mean ≥ 20` "poor"; each boundary value
falls into exactly one band, with 10 classified "acceptable" and 20
classified "poor". -/
theorem classifyFit_bands (mean_dev : ℚ) :
    classifyFit mean_dev
      = (if 20 ≤ mean_dev then "poor" else if 10 ≤ mean_dev then "acceptable" else "good") := by
  unfold classifyFit
  split_ifs <;> first | rfl | (exfalso; linarith)

/-- Claim C4: for source 0 °C, supply 35 °C and nominal duty 5.0 kW, the
derived heating-loop mass flow is `5 / (4.180 * 5)` (within 1e-4 of
0.2392 kg/s), and the device path derives `UA_evap = 5/7` and
`UA_cond = 5/6` (within 1e-3 of 0.714 and 0.833). -/
theorem scenario_A_derived_values :
    (setOperatingPoint noneBackend (setParametersFromHplib "R410A" (some 5)).1 0 35).m_heating
        = 5 / (418/100 * 5) ∧
    |5 / ((418:ℚ)/100 * 5) - 2392/10000| < 1/10000 ∧
    (setParametersFromHplib "R410A" (some 5)).1.kA_evap = 5/7 ∧
    (setParametersFromHplib "R410A" (some 5)).1.kA_cond = 5/6 ∧
    |(5:ℚ)/7 - 714/1000| < 1/1000 ∧
    |(5:ℚ)/6 - 833/1000| < 1/1000 := by
  refine ⟨?_, ?_, ?_, ?_, ?_, ?_⟩
  · norm_num [setOperatingPoint, setParametersFromHplib, calculate_mass_flow]
  · rw [abs_sub_lt_iff]; constructor <;> norm_num
  · norm_num [setParametersFromHplib]
  · norm_num [setParametersFromHplib]
  · rw [abs_sub_lt_iff]; constructor <;> norm_num
  · rw [abs_sub_lt_iff]; constructor <;> norm_num

/-- Claim C5, counterexample: for the fluid name `"r410a"`, which does not
contain the string `"R410A"`, a failing backend still yields the
5.5 bar / 18.0 bar fallback (the code upper-cases the name first,
line 270), not the 3.0 bar / 12.0 bar pair the claim assigns to the
"otherwise" case. -/
theorem pressure_fallback_case_cex :
    hasSubstr "R410A".toList "r410a".toList = false ∧
    estimatePressures noneBackend "r410a" 0 35 = (11/2, 18) ∧
    estimatePressures noneBackend "r410a" 0 35 ≠ ((3 : ℚ), (12 : ℚ)) := by
  have hc : containsR410A "r410a" = true := by decide
  refine ⟨by decide, ?_, ?_⟩
  · simp [estimatePressures, noneBackend, fallbackPressures, hc]
  · simp [estimatePressures, noneBackend, fallbackPressures, hc]

/-- Claim C5, amended: `_estimate_pressures` queries the backend at
`source_temp - 5` and `supply_temp + 5` (converted to Kelvin), converts
Pa to bar, and on failure of either query returns 5.5/18.0 bar when the
fluid name contains "R410A" case-insensitively, else 3.0/12.0 bar — it
coincides with the spec-side model `specEstimatePressures` on every
backend, fluid and temperature pair, and by construction never propagates
the backend failure. -/
theorem estimate_pressures_matches_spec (backend : PropertyBackend) (fluid : String)
    (source_temp supply_temp : ℚ) :
    estimatePressures backend fluid source_temp supply_temp
      = specEstimatePressures backend fluid source_temp supply_temp := by
  unfold estimatePressures specEstimatePressures
  rcases backend fluid ((source_temp - 5) + 27315/100) with _ | pe
  · rcases backend fluid ((supply_temp + 5) + 27315/100) with _ | pc
    · simp [fallbackPressures, containsR410A_eq_spec]
    · simp [fallbackPressures, containsR410A_eq_spec]
  · rcases backend fluid ((supply_temp + 5) + 27315/100) with _ | pc
    · simp [fallbackPressures, containsR410A_eq_spec]
    · rfl

/-- Claim C6, counterexample: a converged state with zero condenser duty
and 1 kW compressor power extracts COP = 0, which is not strictly positive
although the electrical power (1 kW) exceeds the 1e-9 guard — strict
positivity additionally needs a nonzero heating duty. -/
theorem cop_zero_duty_cex :
    get_results zeroCopState = some zeroCopResults ∧
    (1/1000000000 : ℚ) < zeroCopResults.P_el_kW ∧
    zeroCopResults.COP = 0 ∧
    ¬ (0 < zeroCopResults.COP) := by
  refine ⟨?_, by norm_num [zeroCopResults], by norm_num [zeroCopResults],
    by norm_num [zeroCopResults]⟩
  norm_num [get_results, zeroCopState, zeroCopResults, abs_eq_max_neg, max_def]

/-- Claim C6, amended: every extracted result has
`COP = P_th / max(P_el, 1e-9)` with a divisor that is always strictly
positive (so the division is never by zero and, over the rationals /
finite floats, the quotient is finite); the COP is strictly positive
whenever additionally the heating duty is strictly positive. -/
theorem cop_formula_and_positivity (s : SolvedState) (r : Results)
    (h : get_results s = some r) :
    r.COP = r.P_th_kW / max r.P_el_kW (1/1000000000) ∧
    0 < max r.P_el_kW (1/1000000000) ∧
    (1/1000000000 < r.P_el_kW → 0 < r.P_th_kW → 0 < r.COP) := by
  unfold get_results at h
  split at h
  · exact absurd h (by simp)
  · injection h with h
    subst h
    refine ⟨rfl, lt_of_lt_of_le (by norm_num) (le_max_right _ _), ?_⟩
    intro _ hq
    exact div_pos hq (lt_of_lt_of_le (by norm_num) (le_max_right _ _))

/-- Witness for the amended Claim C6 at the concrete converged state
`goodState` (5.2 kW duty, 1.6 kW power, COP 13/4). -/
theorem cop_formula_and_positivity_witness :
    goodResults.COP = goodResults.P_th_kW / max goodResults.P_el_kW (1/1000000000) ∧
    0 < goodResults.COP :=
  have h : get_results goodState = some goodResults := by
    norm_num [get_results, goodState, goodResults, abs_eq_max_neg, max_def]
  ⟨(cop_formula_and_positivity goodState goodResults h).1,
   (cop_formula_and_positivity goodState goodResults h).2.2
     (by norm_num [goodResults]) (by norm_num [goodResults])⟩

/-- Claim C7: when the B-10/W35 point does not converge and the other
five points do, the sweep records the failure, continues, and returns
exactly the five rows of the remaining points in source-temperature order;
the printed summary counts 5 converged of 6 attempted, a failed-point
count of 1. -/
theorem sweep_continues_after_failure (backend : PropertyBackend) (solver : SolverOracle)
    (params : Params) (mdata : Option (List RefRow))
    (h1 : (solver (setOperatingPoint backend params (-10) 35)).status ≠ 0)
    (h2 : (solver (setOperatingPoint backend params (-7) 35)).status = 0)
    (h3 : (solver (setOperatingPoint backend params (-5) 35)).status = 0)
    (h4 : (solver (setOperatingPoint backend params 0 35)).status = 0)
    (h5 : (solver (setOperatingPoint backend params 5 35)).status = 0)
    (h6 : (solver (setOperatingPoint backend params 10 35)).status = 0) :
    (run_validation_study backend solver params mdata).map (fun row => row.T_source)
        = [-7, -5, 0, 5, 10] ∧
    (run_validation_study backend solver params mdata).length = 5 ∧
    (summaryCounts (run_validation_study backend solver params mdata)).2
        - (summaryCounts (run_validation_study backend solver params mdata)).1 = 1 := by
  have e1 : run_single_point backend solver params mdata (-10) 35 = none :=
    (run_single_point_none_iff backend solver params mdata (-10) 35).mpr h1
  obtain ⟨r2, hr2, ht2, _⟩ := run_single_point_some_of_converged backend solver params mdata (-7) 35 h2
  obtain ⟨r3, hr3, ht3, _⟩ := run_single_point_some_of_converged backend solver params mdata (-5) 35 h3
  obtain ⟨r4, hr4, ht4, _⟩ := run_single_point_some_of_converged backend solver params mdata 0 35 h4
  obtain ⟨r5, hr5, ht5, _⟩ := run_single_point_some_of_converged backend solver params mdata 5 35 h5
  obtain ⟨r6, hr6, ht6, _⟩ := run_single_point_some_of_converged backend solver params mdata 10 35 h6
  have hrows : run_validation_study backend solver params mdata = [r2, r3, r4, r5, r6] := by
    unfold run_validation_study testpoints
    simp [List.filterMap_cons, e1, hr2, hr3, hr4, hr5, hr6]
  rw [hrows]
  refine ⟨?_, rfl, rfl⟩
  simp [ht2, ht3, ht4, ht5, ht6]

/-- Witness for Claim C7: a concrete oracle failing exactly at source
temperature -10 °C. -/
theorem sweep_continues_after_failure_witness :
    (run_validation_study noneBackend oneFailSolver setDefaultParameters
        (some exampleManufacturerData)).map (fun row => row.T_source)
      = [-7, -5, 0, 5, 10] :=
  (sweep_continues_after_failure noneBackend oneFailSolver setDefaultParameters
    (some exampleManufacturerData)
    (by norm_num [oneFailSolver, setOperatingPoint, constFailState])
    (by norm_num [oneFailSolver, setOperatingPoint, goodState])
    (by norm_num [oneFailSolver, setOperatingPoint, goodState])
    (by norm_num [oneFailSolver, setOperatingPoint, goodState])
    (by norm_num [oneFailSolver, setOperatingPoint, goodState])
    (by norm_num [oneFailSolver, setOperatingPoint, goodState])).1

/-- Claim C8: the parameter derivation raises nothing (it is a total
function of its inputs); a missing (`None`) or zero nominal duty falls
back to 5.0 kW with the warning flag set; a raw NaN cell is filtered to
`None` by the loader's `safe_float` before the dictionary is built, so the
duty reaching `_set_parameters_from_hplib` is either absent or a finite
value, the stored duty is never 0, and the derived `kA` parameters are the
finite rationals duty/7 and duty/6. -/
theorem specifier_fallback_no_nan (refr : String) (cell : Option PyFloat) (duty : Option ℚ) :
    (setParametersFromHplib refr none).1.P_th_nom_kW = 5 ∧
    (setParametersFromHplib refr none).2 = true ∧
    (setParametersFromHplib refr (some 0)).1.P_th_nom_kW = 5 ∧
    (setParametersFromHplib refr (some 0)).2 = true ∧
    extractPthNom (some PyFloat.nan) = none ∧
    ((∃ y : ℚ, cell = some (PyFloat.fin y)) ∨ extractPthNom cell = none) ∧
    (setParametersFromHplib refr duty).1.P_th_nom_kW ≠ 0 ∧
    (setParametersFromHplib refr duty).1.kA_evap
        = (setParametersFromHplib refr duty).1.P_th_nom_kW / 7 ∧
    (setParametersFromHplib refr duty).1.kA_cond
        = (setParametersFromHplib refr duty).1.P_th_nom_kW / 6 := by
  refine ⟨rfl, rfl, ?_, ?_, rfl, ?_, ?_, rfl, rfl⟩
  · norm_num [setParametersFromHplib]
  · norm_num [setParametersFromHplib]
  · rcases cell with _ | c
    · exact Or.inr rfl
    · cases c
      · exact Or.inr rfl
      · exact Or.inl ⟨_, rfl⟩
  · rcases duty with _ | x
    · norm_num [setParametersFromHplib]
    · by_cases hx : x = 0 <;> simp [setParametersFromHplib, hx]

/-- Claim C9, counterexample: `rampBackend` is non-decreasing wherever it
succeeds (`rampBackend_monotone`), succeeds at both queries for source
temperature 10 °C (evaporating guess 55.63 bar) but fails at the
evaporating query for source temperature 60 °C, where the estimate drops
to the fixed 5.5 bar fallback: the initial-guess evaporating pressure is
not monotone across the backend success/failure boundary. -/
theorem evap_guess_monotonicity_cex :
    (10 : ℚ) < 60 ∧
    rampBackend "R410A" ((10 - 5) + 27315/100) = some 5563000 ∧
    rampBackend "R410A" ((60 - 5) + 27315/100) = none ∧
    (estimatePressures rampBackend "R410A" 10 35).1 = 5563/100 ∧
    (estimatePressures rampBackend "R410A" 60 35).1 = 11/2 ∧
    (estimatePressures rampBackend "R410A" 60 35).1
      < (estimatePressures rampBackend "R410A" 10 35).1 := by
  have hc : containsR410A "R410A" = true := by decide
  refine ⟨by norm_num, ?_, ?_, ?_, ?_, ?_⟩
  · norm_num [rampBackend]
  · norm_num [rampBackend]
  · norm_num [estimatePressures, rampBackend, fallbackPressures, hc]
  · norm_num [estimatePressures, rampBackend, fallbackPressures, hc]
  · norm_num [estimatePressures, rampBackend, fallbackPressures, hc]

/-- Claim C9, amended: the initial-guess evaporating pressure is
non-decreasing in the source temperature at fixed supply temperature and
fluid, given a backend that is non-decreasing where it succeeds, within a
region where the backend succeeds at all queried temperatures; across the
boundary where the backend starts failing the estimate jumps to a fixed
fallback constant and monotonicity can be violated (see the
counterexample). -/
theorem evap_guess_monotone_where_backend_succeeds
    (backend : PropertyBackend) (fluid : String) (T1 T2 Tsup p1 p2 pc : ℚ)
    (hmono : ∀ T Tp u v : ℚ, backend fluid T = some u → backend fluid Tp = some v →
      T ≤ Tp → u ≤ v)
    (hT : T1 ≤ T2)
    (h1 : backend fluid ((T1 - 5) + 27315/100) = some p1)
    (h2 : backend fluid ((T2 - 5) + 27315/100) = some p2)
    (hc : backend fluid ((Tsup + 5) + 27315/100) = some pc) :
    (estimatePressures backend fluid T1 Tsup).1
      ≤ (estimatePressures backend fluid T2 Tsup).1 := by
  have hp : p1 ≤ p2 := hmono _ _ _ _ h1 h2 (by linarith)
  unfold estimatePressures
  rw [h1, h2, hc]
  show p1 / 100000 ≤ p2 / 100000
  exact (div_le_div_iff_of_pos_right (by norm_num)).mpr hp

/-- Witness for the amended Claim C9 at the identity backend and source
temperatures 0 and 10 °C. -/
theorem evap_guess_monotone_witness :
    (estimatePressures idBackend "R290" 0 35).1
      ≤ (estimatePressures idBackend "R290" 10 35).1 :=
  evap_guess_monotone_where_backend_succeeds idBackend "R290" 0 10 35
    ((0:ℚ) - 5 + 27315/100) ((10:ℚ) - 5 + 27315/100) ((35:ℚ) + 5 + 27315/100)
    (fun T Tp u v hu hv hle => by
      simp only [idBackend, Option.some_inj] at hu hv
      exact hu ▸ hv ▸ hle)
    (by norm_num) rfl rfl rfl

/-- Claim C10: the no-device default parameter set fixes refrigerant
R410A, eta_s = 0.75, kA_evap = 0.7, kA_cond = 0.8 and P_th_nom = 5.0 kW;
these kA defaults differ from the duty/7 and duty/6 heuristic of the
device path at the same 5.0 kW duty (5/7 and 5/6), so the same nominal
duty yields different UA parameters depending on whether a device was
loaded. -/
theorem default_params_vs_device_heuristic :
    setDefaultParameters.refrigerant = "R410A" ∧
    setDefaultParameters.eta_s = 3/4 ∧
    setDefaultParameters.kA_evap = 7/10 ∧
    setDefaultParameters.kA_cond = 4/5 ∧
    setDefaultParameters.P_th_nom_kW = 5 ∧
    (setParametersFromHplib "R410A" (some 5)).1.kA_evap = 5/7 ∧
    (setParametersFromHplib "R410A" (some 5)).1.kA_cond = 5/6 ∧
    setDefaultParameters.kA_evap ≠ (setParametersFromHplib "R410A" (some 5)).1.kA_evap ∧
    setDefaultParameters.kA_cond ≠ (setParametersFromHplib "R410A" (some 5)).1.kA_cond := by
  refine ⟨rfl, rfl, rfl, rfl, rfl, ?_, ?_, ?_, ?_⟩
  · norm_num [setParametersFromHplib]
  · norm_num [setParametersFromHplib]
  · norm_num [setDefaultParameters, setParametersFromHplib]
  · norm_num [setDefaultParameters, setParametersFromHplib]
